import Mathlib

/-!
Verification of the Farm-Guru retrieval-and-synthesis pipeline.

Shallow embedding of the core of `backend/app/retriever.py`,
`backend/app/llm.py` and `backend/app/routes/query.py`:

* Python strings are Lean `String`s; `str.lower()`/`str.split()`/slicing are
  modelled on the underlying character list.
* Python floats are modelled as exact rationals `ℚ`.
* Python `list.sort(reverse=True)` is a guaranteed-stable sort, modelled with
  the stable `List.insertionSort` (extensionally the unique stable sort for a
  given total preorder).  `np.argsort`'s default kind is NOT stable in
  general; it is also modelled with `List.insertionSort`, but no universal
  statement about the order of equal scores is derived from that model — only
  properties shared by every ascending argsort, plus evaluations on small
  concrete arrays where numpy demonstrably uses its (stable) insertion sort.
* JSON-ish Python values (the response dictionaries flowing through the
  synthesizer and the normalizer) are modelled by the inductive `PyVal`;
  dictionaries are association lists with first-occurrence lookup and
  in-place update, mirroring `dict.get`/`dict.__setitem__`.
* Fallible Python code (statements that can raise) is modelled in
  `Except Unit`.
-/

namespace FarmGuru

/-! ### Python string primitives -/

/-- The characters of `s.lower()`: `str.lower` maps `Char.toLower` over the
text (ASCII case folding suffices for the source's keyword tables). -/
def lowerL (s : String) : List Char := s.data.map Char.toLower

/-- `isPrefixL pat cs` holds when `pat` is a prefix of `cs`. -/
def isPrefixL : List Char → List Char → Bool
  | [], _ => true
  | _ :: _, [] => false
  | p :: ps, c :: cs => p == c && isPrefixL ps cs

/-- Python `pat in hay` on strings: contiguous-substring test. -/
def containsSub (pat : List Char) : List Char → Bool
  | [] => isPrefixL pat []
  | c :: cs => isPrefixL pat (c :: cs) || containsSub pat cs

/-- `word in query_lower` for one keyword of the source's keyword tables. -/
def hasTerm (ql : List Char) (w : String) : Bool := containsSub w.data ql

/-- `any(word in query_lower for word in ws)`. -/
def anyTerm (ql : List Char) (ws : List String) : Bool := ws.any (hasTerm ql)

/-- Helper for `str.split()`: accumulate the current word (reversed) while
scanning; whitespace ends a word, empty words are dropped. -/
def splitWsAux : List Char → List Char → List (List Char)
  | acc, [] => if acc.isEmpty then [] else [acc.reverse]
  | acc, c :: cs =>
    if c.isWhitespace then
      if acc.isEmpty then splitWsAux [] cs else acc.reverse :: splitWsAux [] cs
    else splitWsAux (c :: acc) cs

/-- Python `str.split()` with no argument: split on whitespace runs,
dropping empty tokens. -/
def splitWs (cs : List Char) : List (List Char) := splitWsAux [] cs

/-- `query_text.lower().split()` as a list of words. -/
def pyWords (s : String) : List (List Char) := splitWs (lowerL s)

/-- `set(query_text.lower().split())`: the distinct words. -/
def wordSet (s : String) : List (List Char) := (pyWords s).dedup

/-- `len(a_set.intersection(b_words))` where `a` is already deduplicated. -/
def interCount (a b : List (List Char)) : Nat := (a.filter (fun w => b.contains w)).length

/-- Python string slicing `s[:n]`. -/
def strTake (n : Nat) (s : String) : String := ⟨s.data.take n⟩

/-- Python `len(s)`. -/
def pyLen (s : String) : Nat := s.data.length

/-- Python `s.strip()`. -/
def pyStrip (s : String) : String :=
  ⟨((s.data.dropWhile Char.isWhitespace).reverse.dropWhile Char.isWhitespace).reverse⟩

/-- `' '.join(l)`. -/
def joinSp (l : List String) : String := String.intercalate " " l

/-! ### Documents and the retriever (`backend/app/retriever.py`) -/

/-- A corpus document: `{id, title, content, snippet, url}`. -/
structure Doc where
  id : String
  title : String
  content : String
  snippet : String
  url : String
deriving DecidableEq, Repr, Inhabited

/-- Dot product of two embedding vectors (`np.dot` row-by-row). -/
def dot (xs ys : List ℚ) : ℚ := (List.zipWith (· * ·) xs ys).sum

/-- The score of one document in `_keyword_search`:
`2 * |query ∩ title words| + |query ∩ content words|`. -/
def keywordScore (q : List (List Char)) (d : Doc) : Nat :=
  2 * interCount q (pyWords d.title) + interCount q (pyWords d.content)

/-- The positively-scored documents of `_keyword_search`, in corpus order,
each decorated with its score (`scored_docs` before sorting). -/
def scoredDocs (docs : List Doc) (query : String) : List (Doc × ℚ) :=
  (docs.map (fun d => (d, (keywordScore (wordSet query) d : ℚ)))).filter
    (fun p => decide (0 < p.2))

/-- The descending-score sort relation used in `_keyword_search`
(`list.sort(key=lambda x: x["similarity"], reverse=True)`). -/
def byScoreDesc (a b : Doc × ℚ) : Prop := b.2 ≤ a.2

instance : DecidableRel byScoreDesc := fun a b => inferInstanceAs (Decidable (b.2 ≤ a.2))

/-- The ascending sort relation of `np.argsort` over an index list. -/
def byScoreAsc (sims : List ℚ) (i j : Nat) : Prop := sims.getD i 0 ≤ sims.getD j 0

instance (sims : List ℚ) : DecidableRel (byScoreAsc sims) :=
  fun i j => inferInstanceAs (Decidable (sims.getD i 0 ≤ sims.getD j 0))

instance : IsTotal (Doc × ℚ) byScoreDesc := ⟨fun a b => le_total b.2 a.2⟩

instance : IsTrans (Doc × ℚ) byScoreDesc := ⟨fun _ _ _ h1 h2 => le_trans h2 h1⟩

instance (sims : List ℚ) : IsTotal Nat (byScoreAsc sims) :=
  ⟨fun i j => le_total (sims.getD i 0) (sims.getD j 0)⟩

instance (sims : List ℚ) : IsTrans Nat (byScoreAsc sims) :=
  ⟨fun _ _ _ h1 h2 => le_trans h1 h2⟩

/-- `DocumentRetriever._keyword_search`: keep positive scores, stable-sort
descending by score (`list.sort(key=..., reverse=True)` is a stable sort,
modelled by the stable `List.insertionSort`), return the first `k`. -/
def keyword_search (docs : List Doc) (query : String) (k : Nat) : List (Doc × ℚ) :=
  ((scoredDocs docs query).insertionSort byScoreDesc).take k

/-- `np.argsort(similarities)[::-1]`: an ascending argsort of the score
list, reversed.  CAVEAT: numpy's default argsort kind (`quicksort`) is not
stable in general; it coincides with the stable `insertionSort` used here
only where equal scores sit inside an insertion-sort-sized partition (in
particular for the small concrete corpora evaluated below).  No universal
claim about the order of equal-score ties is derived from this model — only
properties true of every ascending argsort (which indices appear, and score
order) and concrete small-array evaluations.  Indexing out of range is
modelled with a default score `0` (never reached when the index list is
`range sims.length`). -/
def simOrder (sims : List ℚ) : List Nat :=
  ((List.range sims.length).insertionSort (byScoreAsc sims)).reverse

/-- The local-embedding-similarity tier of `DocumentRetriever.retrieve`:
similarities are raw dot products of the query vector with each document
vector, then the top-`k` indices of `np.argsort(...)[::-1][:k]` are decorated
onto shallow copies of the documents. -/
def localRetrieve (docs : List Doc) (embs : List (List ℚ)) (qEmb : List ℚ) (k : Nat) :
    List (Doc × ℚ) :=
  let sims := embs.map (dot qEmb)
  ((simOrder sims).take k).map (fun i => (docs.getD i default, sims.getD i 0))

/-- `DocumentRetriever.retrieve`, modelled with the remote store disconnected
(the Supabase vector-search tier is an external capability; with `db` absent
the code goes straight to the local tiers).  `model` is the optionally
attached embedding provider, `cachedEmbs` the lazily computed corpus
embeddings; when the cache is missing the code computes embeddings for every
document's content and recurses, which lands in the cached branch. -/
def retrieve (docs : List Doc) (model : Option (String → List ℚ))
    (cachedEmbs : Option (List (List ℚ))) (query : String) (k : Nat) : List (Doc × ℚ) :=
  if docs.isEmpty then []
  else
    match model with
    | Option.none => keyword_search docs query k
    | Option.some enc =>
      match cachedEmbs with
      | Option.some embs => localRetrieve docs embs (enc query) k
      | Option.none => localRetrieve docs (docs.map (fun d => enc d.content)) (enc query) k

/-! ### Python values and response dictionaries -/

/-- A JSON-ish Python value, as flows through the synthesizer and the
normalizer.  `null`/`bool`/`int`/`float`/`str`/`list`/`dict`; floats are
exact rationals, dicts are association lists. -/
inductive PyVal where
  | null : PyVal
  | bool : Bool → PyVal
  | int : Int → PyVal
  | float : ℚ → PyVal
  | str : String → PyVal
  | list : List PyVal → PyVal
  | dict : List (String × PyVal) → PyVal

/-- A Python dictionary with string keys: the shape of every response object
in the pipeline. -/
abbrev Obj := List (String × PyVal)

/-- `d.get(key)` / `d[key]` lookup: first occurrence of the key. -/
def getKey : Obj → String → Option PyVal
  | [], _ => Option.none
  | (k, v) :: rest, key => if k = key then Option.some v else getKey rest key

/-- `d.get(key, dflt)`. -/
def getKeyD (r : Obj) (key : String) (dflt : PyVal) : PyVal := (getKey r key).getD dflt

/-- `d[key] = v`: replace the value at the first occurrence of the key, or
append the pair if the key is absent. -/
def setKey : Obj → String → PyVal → Obj
  | [], key, v => [(key, v)]
  | (k, w) :: rest, key, v =>
    if k = key then (key, v) :: rest else (k, w) :: setKey rest key v

/-- Python truthiness: `None`, `False`, `0`, `0.0`, `""`, `[]`, `{}` are
falsy, everything else truthy. -/
def truthy : PyVal → Bool
  | PyVal.null => false
  | PyVal.bool b => b
  | PyVal.int n => decide (n ≠ 0)
  | PyVal.float q => decide (q ≠ 0)
  | PyVal.str s => decide (s ≠ "")
  | PyVal.list xs => !xs.isEmpty
  | PyVal.dict kvs => !kvs.isEmpty

/-- `isinstance(v, (int, float))`; Python `bool` is a subclass of `int`. -/
def isNum : PyVal → Bool
  | PyVal.int _ => true
  | PyVal.float _ => true
  | PyVal.bool _ => true
  | _ => false

/-- `isinstance(v, list)`. -/
def isList : PyVal → Bool
  | PyVal.list _ => true
  | _ => false

/-- `isinstance(v, dict)`. -/
def isDict : PyVal → Bool
  | PyVal.dict _ => true
  | _ => false

/-- `float(v)` on a numeric value (`bool` converts to `0.0`/`1.0`). -/
def toFloat : PyVal → ℚ
  | PyVal.int n => (n : ℚ)
  | PyVal.float q => q
  | PyVal.bool b => if b then 1 else 0
  | _ => 0

/-- Python `str(v)`.  The identity on strings — the only case the pipeline
relies on; the renderings of the remaining cases approximate `str`'s output
and are never inspected by any claim. -/
def pyStr : PyVal → String
  | PyVal.str s => s
  | PyVal.null => "None"
  | PyVal.bool b => if b then "True" else "False"
  | PyVal.int n => toString n
  | PyVal.float q => toString q
  | PyVal.list _ => "<list>"
  | PyVal.dict _ => "<dict>"

/-- Truthiness of the optional `image_context` argument (`None` and the
empty string are falsy). -/
def optTruthy : Option String → Bool
  | Option.some s => decide (s ≠ "")
  | Option.none => false

/-! ### The synthesizer (`backend/app/llm.py`) -/

/-- `LLMClient._generate_contextual_answer`: a priority-ordered keyword
classifier over the lowercased query, each category a fixed template with the
leading context snippets appended. -/
def generate_contextual_answer (query : String) (snippets : List String)
    (image_context : Option String) : String :=
  let ql := lowerL query
  if optTruthy image_context then
    let ctx := image_context.getD ""
    if hasTerm ql "disease" || hasTerm ql "pest" then
      "Based on the uploaded image showing " ++ ctx ++
        ", I can see potential issues that may require attention. " ++
        (if snippets.isEmpty then
          "Please consult with a local agricultural expert for proper diagnosis and treatment recommendations."
        else joinSp (snippets.take 2))
    else
      "From the uploaded image of " ++ ctx ++ ", " ++
        (if snippets.isEmpty then
          "this appears to be a healthy crop. Continue with regular care and monitoring."
        else joinSp (snippets.take 2))
  else if anyTerm ql ["irrigate", "water", "rain", "weather"] then
    let base := "For irrigation timing, consider soil moisture, weather conditions, and crop growth stage."
    if snippets.isEmpty then
      base ++ " Check soil moisture at 6-inch depth and irrigate when it feels dry."
    else base ++ " " ++ snippets.headD ""
  else if anyTerm ql ["pest", "disease", "insect", "fungus"] then
    let base := "For pest and disease management, early identification and integrated pest management are key."
    if snippets.isEmpty then
      base ++ " Monitor crops regularly and consult local agricultural extension services for specific treatments."
    else base ++ " " ++ snippets.headD ""
  else if anyTerm ql ["plant", "sow", "seed", "timing"] then
    let base := "Planting timing depends on local climate, soil conditions, and crop variety."
    if snippets.isEmpty then
      base ++ " Consult your local agricultural calendar and weather forecasts for optimal timing."
    else base ++ " " ++ snippets.headD ""
  else if anyTerm ql ["price", "market", "sell", "buy"] then
    let base := "Market prices fluctuate based on supply, demand, and seasonal factors."
    if snippets.isEmpty then
      base ++ " Check local mandi prices and consider storage options during peak harvest."
    else base ++ " " ++ snippets.headD ""
  else if !snippets.isEmpty then
    "Based on agricultural best practices: " ++ joinSp (snippets.take 2)
  else
    "For specific agricultural advice, I recommend consulting with your local Krishi Vigyan Kendra (KVK) or agricultural extension officer who can provide guidance tailored to your local conditions and crops."

/-- `LLMClient._generate_actions`: every matched category appends its fixed
3-item list, a fixed default is used when none matched, and the accumulated
list is truncated to the first 3. -/
def generate_actions (query : String) (image_context : Option String) : List String :=
  let ql := lowerL query
  let a1 :=
    if optTruthy image_context || anyTerm ql ["disease", "pest", "problem"] then
      ["Consult local KVK for expert diagnosis",
       "Monitor crop daily for changes",
       "Consider soil testing if needed"]
    else []
  let a2 :=
    if anyTerm ql ["irrigate", "water"] then
      ["Check soil moisture levels",
       "Monitor weather forecast",
       "Adjust irrigation schedule accordingly"]
    else []
  let a3 :=
    if anyTerm ql ["plant", "sow", "seed"] then
      ["Check local weather conditions",
       "Prepare soil with proper nutrients",
       "Source quality seeds from certified dealers"]
    else []
  let a4 :=
    if anyTerm ql ["market", "price", "sell"] then
      ["Check current mandi prices",
       "Consider storage options",
       "Plan harvest timing strategically"]
    else []
  let actions := a1 ++ a2 ++ a3 ++ a4
  (if actions.isEmpty then
    ["Consult local agricultural expert",
     "Monitor crop conditions regularly",
     "Keep records of farming activities"]
  else actions).take 3

/-- The context snippets of `_deterministic_fallback`: the non-empty
snippets of the first 3 retrieved documents. -/
def contextSnippets (docs : List Doc) : List String :=
  ((docs.take 3).filter (fun d => decide (d.snippet ≠ ""))).map (fun d => d.snippet)

/-- One source entry of `_deterministic_fallback`: snippet truncated to 100
characters plus an ellipsis marker. -/
def fallbackSource (d : Doc) : PyVal :=
  PyVal.dict
    [("title", PyVal.str d.title),
     ("url", PyVal.str d.url),
     ("snippet", PyVal.str (strTake 100 d.snippet ++ "..."))]

/-- The confidence of `_deterministic_fallback`:
`min(0.8, 0.4 + len(context_snippets) * 0.1)`. -/
def fallback_confidence (n : Nat) : ℚ := min (8/10) (4/10 + n * (1/10))

/-- `LLMClient._deterministic_fallback` (Tier B).  `demo` is the `DEMO_MODE`
configuration flag, which only selects the reported `meta.mode`. -/
def deterministic_fallback (demo : Bool) (prompt_text : String) (retrieved_docs : List Doc)
    (image_context : Option String) : Obj :=
  [("answer", PyVal.str (generate_contextual_answer prompt_text (contextSnippets retrieved_docs) image_context)),
   ("confidence", PyVal.float (fallback_confidence (contextSnippets retrieved_docs).length)),
   ("actions", PyVal.list ((generate_actions prompt_text image_context).map PyVal.str)),
   ("sources", PyVal.list ((retrieved_docs.take 3).map fallbackSource)),
   ("meta", PyVal.dict
     [("mode", PyVal.str (if demo then "demo" else "fallback")),
      ("retrieved_docs", PyVal.int retrieved_docs.length)])]

/-- The outcome of `query_huggingface` as seen by `synthesize_answer`:
either nothing came back, or text that does not parse as JSON, or text that
parses to the JSON value carried by the `json` constructor. -/
inductive HFResult where
  | noResp : HFResult
  | text : String → HFResult
  | json : PyVal → HFResult

/-- Python `field in v` (TypeError — modelled as `Except.error` — on
non-container values): key test on dicts, membership on lists, substring test
on strings. -/
def pyIn (field : String) : PyVal → Except Unit Bool
  | PyVal.dict kvs => Except.ok (kvs.any (fun kv => kv.1 == field))
  | PyVal.list xs =>
    Except.ok (xs.any (fun x => match x with | PyVal.str s => s == field | _ => false))
  | PyVal.str s => Except.ok (containsSub field.data s.data)
  | _ => Except.error ()

/-- `LLMClient._validate_response`:
`all(field in response for field in ["answer","confidence","actions","sources"])`. -/
def validate_response (v : PyVal) : Except Unit Bool := do
  let a ← pyIn "answer" v
  let b ← pyIn "confidence" v
  let c ← pyIn "actions" v
  let d ← pyIn "sources" v
  return a && b && c && d

/-- The raw-text wrap of a backend reply that is not JSON: the text verbatim
as `answer`, fixed confidence `0.7`, empty `actions`/`sources`,
`meta.mode = "ai"`. -/
def ai_raw_wrap (modelName s : String) : Obj :=
  [("answer", PyVal.str (pyStrip s)),
   ("confidence", PyVal.float (7/10)),
   ("actions", PyVal.list []),
   ("sources", PyVal.list []),
   ("meta", PyVal.dict [("mode", PyVal.str "ai"), ("model", PyVal.str modelName)])]

/-- `LLMClient.synthesize_answer`.  Tier A is skipped entirely in demo mode;
a backend reply that parses as JSON and passes `_validate_response` is
returned with `meta` stamped (raising `TypeError` when the parsed value does
not support item assignment); a reply that fails to parse as JSON is wrapped
verbatim with confidence `0.7`; everything else falls to Tier B. -/
def synthesize_answer (demo : Bool) (hf : HFResult) (modelName : String)
    (prompt_text : String) (retrieved_docs : List Doc) (image_context : Option String) :
    Except Unit Obj :=
  if demo then
    Except.ok (deterministic_fallback demo prompt_text retrieved_docs image_context)
  else
    match hf with
    | HFResult.noResp =>
      Except.ok (deterministic_fallback demo prompt_text retrieved_docs image_context)
    | HFResult.text s =>
      if s = "" then
        Except.ok (deterministic_fallback demo prompt_text retrieved_docs image_context)
      else
        Except.ok (ai_raw_wrap modelName s)
    | HFResult.json v =>
      match validate_response v with
      | Except.error e => Except.error e
      | Except.ok true =>
        match v with
        | PyVal.dict kvs =>
          Except.ok (setKey kvs "meta"
            (PyVal.dict [("mode", PyVal.str "ai"), ("model", PyVal.str modelName)]))
        | _ => Except.error ()
      | Except.ok false =>
        Except.ok (deterministic_fallback demo prompt_text retrieved_docs image_context)

/-! ### The response normalizer (`ensure_response_structure` in
`backend/app/routes/query.py`) -/

/-- The apostrophe character, kept out of string literals. -/
def apos : String := (Char.ofNat 39).toString

/-- The generic greeting substituted for a missing/empty answer. -/
def defaultAnswer : String := "I" ++ apos ++ "m here to help with your farming questions."

/-- `if not response.get("answer"): response["answer"] = ...`. -/
def stepAnswer (r : Obj) : Obj :=
  if truthy (getKeyD r "answer" PyVal.null) then r
  else setKey r "answer" (PyVal.str defaultAnswer)

/-- The confidence statement of `ensure_response_structure`: replace
non-numeric confidence by `0.5`, otherwise clamp `float(confidence)` into
`[0, 1]`. -/
def stepConf (r : Obj) : Obj :=
  if isNum (getKeyD r "confidence" PyVal.null) then
    setKey r "confidence" (PyVal.float (max 0 (min 1 (toFloat (getKeyD r "confidence" PyVal.null)))))
  else setKey r "confidence" (PyVal.float (1/2))

/-- Replace a non-list `actions` by the fixed 2-item default. -/
def stepActions (r : Obj) : Obj :=
  if isList (getKeyD r "actions" PyVal.null) then r
  else setKey r "actions"
    (PyVal.list [PyVal.str "Consult local agricultural expert", PyVal.str "Monitor crop conditions"])

/-- Replace a non-list `sources` by the empty list. -/
def stepSources (r : Obj) : Obj :=
  if isList (getKeyD r "sources" PyVal.null) then r
  else setKey r "sources" (PyVal.list [])

/-- Replace a non-dict `meta` by the empty dict. -/
def stepMeta (r : Obj) : Obj :=
  if isDict (getKeyD r "meta" PyVal.null) then r
  else setKey r "meta" (PyVal.dict [])

/-- One element of the `validated_sources` loop: dict elements are coerced to
`{title, url, snippet}` with string casts and defaults, non-dict elements are
dropped. -/
def coerceSource (v : PyVal) : Option PyVal :=
  match v with
  | PyVal.dict kvs =>
    Option.some (PyVal.dict
      [("title", PyVal.str (pyStr (getKeyD kvs "title" (PyVal.str "Agricultural Resource")))),
       ("url", PyVal.str (pyStr (getKeyD kvs "url" (PyVal.str "")))),
       ("snippet", PyVal.str (pyStr (getKeyD kvs "snippet" (PyVal.str ""))))])
  | _ => Option.none

/-- The `validated_sources` pass: rebuild `sources` from its (now
guaranteed) list value. -/
def stepValidateSources (r : Obj) : Obj :=
  let src := match getKeyD r "sources" (PyVal.list []) with
    | PyVal.list xs => xs
    | _ => []
  setKey r "sources" (PyVal.list (src.filterMap coerceSource))

/-- `ensure_response_structure`: the normalizer applied to every pipeline
exit, as the sequence of its statements. -/
def ensure_response_structure (r : Obj) : Obj :=
  stepValidateSources (stepMeta (stepSources (stepActions (stepConf (stepAnswer r)))))

/-! ### The contract of a well-formed response after normalization -/

/-- The AnswerResponse contract checked by claim C4: non-empty string answer,
confidence in `[0, 1]`, at most 3 actions, every source a coerced
`{title, url, snippet}` record with a snippet of at most 103 characters. -/
def goodResponse (r : Obj) : Prop :=
  (∃ s, getKey r "answer" = Option.some (PyVal.str s) ∧ s ≠ "") ∧
  (∃ q : ℚ, getKey r "confidence" = Option.some (PyVal.float q) ∧ 0 ≤ q ∧ q ≤ 1) ∧
  (∃ xs, getKey r "actions" = Option.some (PyVal.list xs) ∧ xs.length ≤ 3) ∧
  (∃ ss, getKey r "sources" = Option.some (PyVal.list ss) ∧
    ∀ v ∈ ss, ∃ t u sn, v = PyVal.dict
      [("title", PyVal.str t), ("url", PyVal.str u), ("snippet", PyVal.str sn)] ∧
      pyLen sn ≤ 103)

/-- Whether Tier A accepted a structured backend reply: the generative tier
is enabled and `_validate_response` returned `True` on the parsed JSON. -/
def tierAAccepted (demo : Bool) (hf : HFResult) : Bool :=
  if demo then false
  else
    match hf with
    | HFResult.json v =>
      match validate_response v with
      | Except.ok true => true
      | _ => false
    | _ => false

/-! ### Concrete inputs used to instantiate the claims -/

/-- First of two corpus documents given identical embeddings. -/
def tieDocA : Doc := ⟨"A", "", "", "", ""⟩

/-- Second of two corpus documents given identical embeddings. -/
def tieDocB : Doc := ⟨"B", "", "", "", ""⟩

/-- The end-to-end irrigation scenario query. -/
def irrigationQuery : String := "When should I irrigate my wheat field?"

/-- The fixed irrigation template sentence of `_generate_contextual_answer`. -/
def irrigationBase : String :=
  "For irrigation timing, consider soil moisture, weather conditions, and crop growth stage."

/-- The irrigation-category 3-item action list of `_generate_actions`. -/
def irrigationActions : List String :=
  ["Check soil moisture levels", "Monitor weather forecast",
   "Adjust irrigation schedule accordingly"]

/-- A matching document (non-empty snippet) for the irrigation scenario. -/
def wheatDoc1 : Doc :=
  ⟨"1", "Wheat Irrigation Guidelines", "Wheat requires 4-6 irrigations.",
   "Wheat requires 4-6 irrigations during growing season.",
   "https://icar.org.in/wheat-cultivation"⟩

/-- A second matching document (non-empty snippet) for the irrigation
scenario. -/
def wheatDoc2 : Doc :=
  ⟨"7", "Water Conservation Techniques", "Drip irrigation saves water.",
   "Drip irrigation and mulching save 30-50% water.",
   "https://icar.org.in/water-conservation"⟩

/-- A structured backend reply that parses as JSON but misses the `sources`
field. -/
def noSourcesReply : Obj :=
  [("answer", PyVal.str "A"), ("confidence", PyVal.float (1/2)),
   ("actions", PyVal.list [])]

/-- A structured backend reply that passes `_validate_response` while
carrying 4 actions. -/
def fourActionsReply : Obj :=
  [("answer", PyVal.str "A"), ("confidence", PyVal.float (1/2)),
   ("actions", PyVal.list [PyVal.str "a", PyVal.str "b", PyVal.str "c", PyVal.str "d"]),
   ("sources", PyVal.list [])]

/-! ### Basic lemmas: strings -/

theorem data_append (s t : String) : (s ++ t).data = s.data ++ t.data := by
  cases s; cases t; rfl

theorem eq_empty_of_data {s : String} (h : s.data = []) : s = "" := by
  cases s; cases h; rfl

theorem append_ne_empty_left {s : String} (h : s ≠ "") (t : String) : s ++ t ≠ "" := by
  intro e
  have hd : s.data ++ t.data = [] := by rw [← data_append, e]
  exact h (eq_empty_of_data (List.append_eq_nil.mp hd).1)

theorem pyLen_append (s t : String) : pyLen (s ++ t) = pyLen s + pyLen t := by
  simp [pyLen, data_append]

theorem pyLen_strTake (n : Nat) (s : String) : pyLen (strTake n s) ≤ n := by
  simp [pyLen, strTake]

/-! ### Basic lemmas: dictionaries -/

theorem getKey_setKey_self (r : Obj) (k : String) (v : PyVal) :
    getKey (setKey r k v) k = Option.some v := by
  induction r with
  | nil => simp [setKey, getKey]
  | cons p rest ih =>
    by_cases h : p.1 = k
    · simp [setKey, h, getKey]
    · simp [setKey, h, getKey, ih]

theorem getKey_setKey_ne (r : Obj) {k k' : String} (h : k' ≠ k) (v : PyVal) :
    getKey (setKey r k' v) k = getKey r k := by
  induction r with
  | nil => simp [setKey, getKey, h]
  | cons p rest ih =>
    by_cases hp : p.1 = k'
    · simp [setKey, hp, getKey, h, hp ▸ h]
    · simp [setKey, hp, getKey, ih]

theorem setKey_eq_of_getKey (r : Obj) (k : String) (v : PyVal)
    (h : getKey r k = Option.some v) : setKey r k v = r := by
  induction r with
  | nil => simp [getKey] at h
  | cons p rest ih =>
    obtain ⟨k₀, v₀⟩ := p
    by_cases hp : k₀ = k
    · subst hp
      simp [getKey] at h
      simp [setKey, h]
    · simp only [getKey, if_neg hp] at h
      simp [setKey, hp, ih h]

/-! ### Sortedness of the two sorting tiers -/

/-- The argsort underlying `simOrder` is sorted ascending by score.  This
holds for every ascending argsort regardless of the sort kind, so it is
independent of the stable-vs-unstable modelling of `np.argsort`. -/
theorem simOrder_sorted (sims : List ℚ) :
    (simOrder sims).Pairwise (fun i j => sims.getD j 0 ≤ sims.getD i 0) := by
  unfold simOrder
  rw [List.pairwise_reverse]
  exact List.sorted_insertionSort (byScoreAsc sims) (List.range sims.length)

/-- `simOrder sims` is a permutation of all corpus indices; again true of
every ascending argsort. -/
theorem simOrder_perm (sims : List ℚ) : (simOrder sims).Perm (List.range sims.length) :=
  (List.reverse_perm _).trans (List.perm_insertionSort _ _)

/-- Scores along `simOrder` are non-increasing. -/
theorem simOrder_scores_sorted (sims : List ℚ) :
    ((simOrder sims).map (fun i => sims.getD i 0)).Pairwise (· ≥ ·) := by
  rw [List.pairwise_map]
  exact (simOrder_sorted sims).imp (fun hab => hab)

/-- The stable descending sort of `_keyword_search` is sorted by
non-increasing score. -/
theorem keywordSort_sorted (l : List (Doc × ℚ)) :
    (l.insertionSort byScoreDesc).Pairwise byScoreDesc :=
  List.sorted_insertionSort byScoreDesc l

/-- Stability of `_keyword_search`'s sort: for every score value, the
documents carrying exactly that score appear in the sorted list exactly as
they appear (in corpus order) before sorting. -/
theorem keywordSort_stable (l : List (Doc × ℚ)) (c : ℚ) :
    (l.insertionSort byScoreDesc).filter (fun p => decide (p.2 = c)) =
      l.filter (fun p => decide (p.2 = c)) := by
  have hperm : ((l.insertionSort byScoreDesc).filter (fun p => decide (p.2 = c))).Perm
      (l.filter (fun p => decide (p.2 = c))) :=
    (List.perm_insertionSort byScoreDesc l).filter _
  have hpw : (l.filter (fun p => decide (p.2 = c))).Pairwise byScoreDesc := by
    apply List.pairwise_of_forall_mem_list
    intro a ha b hb
    have ha2 : a.2 = c := by simpa using (List.mem_filter.mp ha).2
    have hb2 : b.2 = c := by simpa using (List.mem_filter.mp hb).2
    show b.2 ≤ a.2
    rw [ha2, hb2]
  have hsub : List.Sublist (l.filter (fun p => decide (p.2 = c)))
      (l.insertionSort byScoreDesc) :=
    List.sublist_insertionSort hpw (List.filter_sublist l)
  have hsub2 : List.Sublist (l.filter (fun p => decide (p.2 = c)))
      ((l.insertionSort byScoreDesc).filter (fun p => decide (p.2 = c))) := by
    have := hsub.filter (fun p => decide (p.2 = c))
    rwa [List.filter_filter, show ((fun p : Doc × ℚ => decide (p.2 = c) && decide (p.2 = c))) =
      (fun p => decide (p.2 = c)) from funext (fun p => Bool.and_self _)] at this
  exact (hsub2.eq_of_length hperm.length_eq.symm).symm

/-! ### Normalizer lemmas -/

theorem getKey_stepAnswer_ne (r : Obj) {k : String} (h : k ≠ "answer") :
    getKey (stepAnswer r) k = getKey r k := by
  unfold stepAnswer
  split
  · rfl
  · exact getKey_setKey_ne r (Ne.symm h) _

theorem getKey_stepConf_ne (r : Obj) {k : String} (h : k ≠ "confidence") :
    getKey (stepConf r) k = getKey r k := by
  unfold stepConf
  split
  · exact getKey_setKey_ne r (Ne.symm h) _
  · exact getKey_setKey_ne r (Ne.symm h) _

theorem getKey_stepActions_ne (r : Obj) {k : String} (h : k ≠ "actions") :
    getKey (stepActions r) k = getKey r k := by
  unfold stepActions
  split
  · rfl
  · exact getKey_setKey_ne r (Ne.symm h) _

theorem getKey_stepSources_ne (r : Obj) {k : String} (h : k ≠ "sources") :
    getKey (stepSources r) k = getKey r k := by
  unfold stepSources
  split
  · rfl
  · exact getKey_setKey_ne r (Ne.symm h) _

theorem getKey_stepMeta_ne (r : Obj) {k : String} (h : k ≠ "meta") :
    getKey (stepMeta r) k = getKey r k := by
  unfold stepMeta
  split
  · rfl
  · exact getKey_setKey_ne r (Ne.symm h) _

theorem getKey_stepValidateSources_ne (r : Obj) {k : String} (h : k ≠ "sources") :
    getKey (stepValidateSources r) k = getKey r k := by
  unfold stepValidateSources
  exact getKey_setKey_ne r (Ne.symm h) _

theorem stepAnswer_truthy (r : Obj) :
    truthy (getKeyD (stepAnswer r) "answer" PyVal.null) = true := by
  unfold stepAnswer
  split
  · assumption
  · rw [getKeyD, getKey_setKey_self]
    decide

theorem clamp_fix {q : ℚ} (h0 : 0 ≤ q) (h1 : q ≤ 1) : max 0 (min 1 q) = q := by
  rw [min_eq_right h1, max_eq_right h0]

theorem stepConf_value (r : Obj) :
    ∃ q : ℚ, getKey (stepConf r) "confidence" = Option.some (PyVal.float q) ∧
      0 ≤ q ∧ q ≤ 1 := by
  unfold stepConf
  split
  · refine ⟨_, getKey_setKey_self _ _ _, le_max_left _ _, ?_⟩
    exact max_le (by norm_num) (min_le_left _ _)
  · exact ⟨_, getKey_setKey_self _ _ _, by norm_num, by norm_num⟩

theorem stepActions_shape (r : Obj) :
    ∃ xs, getKey (stepActions r) "actions" = Option.some (PyVal.list xs) := by
  unfold stepActions
  split
  · rename_i hcond
    cases hv : getKey r "actions" with
    | none => rw [getKeyD, hv] at hcond; simp [isList] at hcond
    | some v =>
      rw [getKeyD, hv] at hcond
      cases v <;> simp [isList] at hcond
      exact ⟨_, rfl⟩
  · exact ⟨_, getKey_setKey_self _ _ _⟩

theorem stepSources_shape (r : Obj) :
    ∃ xs, getKey (stepSources r) "sources" = Option.some (PyVal.list xs) := by
  unfold stepSources
  split
  · rename_i hcond
    cases hv : getKey r "sources" with
    | none => rw [getKeyD, hv] at hcond; simp [isList] at hcond
    | some v =>
      rw [getKeyD, hv] at hcond
      cases v <;> simp [isList] at hcond
      exact ⟨_, rfl⟩
  · exact ⟨_, getKey_setKey_self _ _ _⟩

theorem stepMeta_shape (r : Obj) :
    ∃ kvs, getKey (stepMeta r) "meta" = Option.some (PyVal.dict kvs) := by
  unfold stepMeta
  split
  · rename_i hcond
    cases hv : getKey r "meta" with
    | none => rw [getKeyD, hv] at hcond; simp [isDict] at hcond
    | some v =>
      rw [getKeyD, hv] at hcond
      cases v <;> simp [isDict] at hcond
      exact ⟨_, rfl⟩
  · exact ⟨_, getKey_setKey_self _ _ _⟩

/-- A coerced source is a fixed point of the coercion. -/
theorem coerceSource_bind (a : PyVal) :
    (coerceSource a).bind coerceSource = coerceSource a := by
  cases a <;> simp [coerceSource, getKeyD, getKey, pyStr]

theorem filterMap_coerceSource_fix (l : List PyVal) :
    (l.filterMap coerceSource).filterMap coerceSource = l.filterMap coerceSource := by
  rw [List.filterMap_filterMap]
  exact congrFun (congrArg List.filterMap (funext coerceSource_bind)) l

theorem stepValidateSources_shape (r : Obj) :
    ∃ xs, getKey (stepValidateSources r) "sources" = Option.some (PyVal.list xs) ∧
      xs.filterMap coerceSource = xs := by
  unfold stepValidateSources
  exact ⟨_, getKey_setKey_self _ _ _, filterMap_coerceSource_fix _⟩

/-- The fields of any normalized response: truthy answer, clamped float
confidence, list actions, list of coerced sources, dict meta. -/
theorem ensure_fields (r : Obj) :
    truthy (getKeyD (ensure_response_structure r) "answer" PyVal.null) = true ∧
    (∃ q : ℚ, getKey (ensure_response_structure r) "confidence" =
        Option.some (PyVal.float q) ∧ 0 ≤ q ∧ q ≤ 1) ∧
    (∃ xs, getKey (ensure_response_structure r) "actions" = Option.some (PyVal.list xs)) ∧
    (∃ xs, getKey (ensure_response_structure r) "sources" = Option.some (PyVal.list xs) ∧
      xs.filterMap coerceSource = xs) ∧
    (∃ kvs, getKey (ensure_response_structure r) "meta" = Option.some (PyVal.dict kvs)) := by
  unfold ensure_response_structure
  refine ⟨?_, ?_, ?_, ?_, ?_⟩
  · rw [getKeyD, getKey_stepValidateSources_ne _ (by decide), getKey_stepMeta_ne _ (by decide),
      getKey_stepSources_ne _ (by decide), getKey_stepActions_ne _ (by decide),
      getKey_stepConf_ne _ (by decide), ← getKeyD]
    exact stepAnswer_truthy r
  · rw [getKey_stepValidateSources_ne _ (by decide), getKey_stepMeta_ne _ (by decide),
      getKey_stepSources_ne _ (by decide), getKey_stepActions_ne _ (by decide)]
    exact stepConf_value _
  · rw [getKey_stepValidateSources_ne _ (by decide), getKey_stepMeta_ne _ (by decide),
      getKey_stepSources_ne _ (by decide)]
    exact stepActions_shape _
  · exact stepValidateSources_shape _
  · rw [getKey_stepValidateSources_ne _ (by decide)]
    exact stepMeta_shape _

/-- C8: `ensure_response_structure` is idempotent — applying the normalizer
to an already-normalized response dictionary returns it unchanged, for every
candidate mapping. -/
theorem C8_normalize_idempotent (r : Obj) :
    ensure_response_structure (ensure_response_structure r) = ensure_response_structure r := by
  obtain ⟨hA, ⟨q, hC, hq0, hq1⟩, ⟨acts, hAc⟩, ⟨srcs, hS, hSfix⟩, ⟨meta, hM⟩⟩ :=
    ensure_fields r
  set n := ensure_response_structure r with hn
  have s1 : stepAnswer n = n := by
    unfold stepAnswer
    rw [hA]
    simp
  have s2 : stepConf (stepAnswer n) = n := by
    rw [s1]
    unfold stepConf
    rw [getKeyD, hC]
    simp only [isNum, Option.getD_some, if_true]
    rw [show toFloat (PyVal.float q) = q from rfl, clamp_fix hq0 hq1]
    exact setKey_eq_of_getKey n _ _ hC
  have s3 : stepActions (stepConf (stepAnswer n)) = n := by
    rw [s2]
    unfold stepActions
    rw [getKeyD, hAc]
    simp [isList]
  have s4 : stepSources (stepActions (stepConf (stepAnswer n))) = n := by
    rw [s3]
    unfold stepSources
    rw [getKeyD, hS]
    simp [isList]
  have s5 : stepMeta (stepSources (stepActions (stepConf (stepAnswer n)))) = n := by
    rw [s4]
    unfold stepMeta
    rw [getKeyD, hM]
    simp [isDict]
  show stepValidateSources (stepMeta (stepSources (stepActions (stepConf (stepAnswer n))))) = n
  rw [s5]
  unfold stepValidateSources
  rw [getKeyD, hS]
  simp only [Option.getD_some]
  rw [hSfix]
  exact setKey_eq_of_getKey n _ _ hS

/-- The deterministic templates always produce a non-empty answer string. -/
theorem generate_contextual_answer_ne_empty (query : String) (snippets : List String)
    (img : Option String) : generate_contextual_answer query snippets img ≠ "" := by
  simp only [generate_contextual_answer]
  split_ifs <;> first
    | decide
    | ((repeat' apply append_ne_empty_left); decide)

/-- `_generate_actions` always returns exactly 3 actions. -/
theorem generate_actions_len (query : String) (img : Option String) :
    (generate_actions query img).length = 3 := by
  simp only [generate_actions]
  split_ifs <;> first | rfl | simp_all

/-- The normalizer turns a string-valued `answer` into a non-empty
string-valued `answer`. -/
theorem ensure_answer_of_str (r : Obj) (s : String)
    (h : getKey r "answer" = Option.some (PyVal.str s)) :
    ∃ s', getKey (ensure_response_structure r) "answer" =
      Option.some (PyVal.str s') ∧ s' ≠ "" := by
  unfold ensure_response_structure
  rw [getKey_stepValidateSources_ne _ (by decide), getKey_stepMeta_ne _ (by decide),
    getKey_stepSources_ne _ (by decide), getKey_stepActions_ne _ (by decide),
    getKey_stepConf_ne _ (by decide)]
  unfold stepAnswer
  rw [getKeyD, h]
  by_cases hs : s = ""
  · subst hs
    simp only [Option.getD_some, truthy]
    rw [if_neg (by decide)]
    exact ⟨defaultAnswer, getKey_setKey_self _ _ _, by decide⟩
  · simp only [Option.getD_some, truthy]
    rw [if_pos (by simpa using hs)]
    exact ⟨s, h, hs⟩

/-- The normalizer keeps a list-valued `actions` unchanged. -/
theorem ensure_actions_of_list (r : Obj) (xs : List PyVal)
    (h : getKey r "actions" = Option.some (PyVal.list xs)) :
    getKey (ensure_response_structure r) "actions" = Option.some (PyVal.list xs) := by
  unfold ensure_response_structure
  rw [getKey_stepValidateSources_ne _ (by decide), getKey_stepMeta_ne _ (by decide),
    getKey_stepSources_ne _ (by decide)]
  have hc : getKey (stepConf (stepAnswer r)) "actions" = Option.some (PyVal.list xs) := by
    rw [getKey_stepConf_ne _ (by decide), getKey_stepAnswer_ne _ (by decide)]
    exact h
  unfold stepActions
  rw [getKeyD, hc]
  simp [isList, hc]

/-- The normalizer replaces a list-valued `sources` by its element-wise
coercion. -/
theorem ensure_sources_of_list (r : Obj) (ss : List PyVal)
    (h : getKey r "sources" = Option.some (PyVal.list ss)) :
    getKey (ensure_response_structure r) "sources" =
      Option.some (PyVal.list (ss.filterMap coerceSource)) := by
  unfold ensure_response_structure
  have hs : getKey (stepActions (stepConf (stepAnswer r))) "sources" =
      Option.some (PyVal.list ss) := by
    rw [getKey_stepActions_ne _ (by decide), getKey_stepConf_ne _ (by decide),
      getKey_stepAnswer_ne _ (by decide)]
    exact h
  have hs2 : getKey (stepSources (stepActions (stepConf (stepAnswer r)))) "sources" =
      Option.some (PyVal.list ss) := by
    unfold stepSources
    rw [getKeyD, hs]
    simp [isList, hs]
  have hs3 : getKey (stepMeta (stepSources (stepActions (stepConf (stepAnswer r)))))
      "sources" = Option.some (PyVal.list ss) := by
    rw [getKey_stepMeta_ne _ (by decide)]
    exact hs2
  unfold stepValidateSources
  rw [getKeyD, hs3]
  simp only [Option.getD_some]
  exact getKey_setKey_self _ _ _

/-- The confidence field of any normalized response is a float in `[0, 1]`. -/
theorem ensure_conf_bounds (r : Obj) :
    ∃ q : ℚ, getKey (ensure_response_structure r) "confidence" =
      Option.some (PyVal.float q) ∧ 0 ≤ q ∧ q ≤ 1 :=
  (ensure_fields r).2.1

/-- The Tier B output composed with the normalizer meets the full response
contract. -/
theorem goodResponse_deterministic (demo : Bool) (p : String) (docs : List Doc)
    (img : Option String) :
    goodResponse (ensure_response_structure (deterministic_fallback demo p docs img)) := by
  refine ⟨?_, ensure_conf_bounds _, ?_, ?_⟩
  · exact ensure_answer_of_str _ (generate_contextual_answer p (contextSnippets docs) img)
      (by simp [deterministic_fallback, getKey])
  · refine ⟨(generate_actions p img).map PyVal.str,
      ensure_actions_of_list _ _ (by simp [deterministic_fallback, getKey]), ?_⟩
    rw [List.length_map, generate_actions_len]
  · refine ⟨_, ensure_sources_of_list _ ((docs.take 3).map fallbackSource)
      (by simp [deterministic_fallback, getKey]), ?_⟩
    intro v hv
    rw [List.mem_filterMap] at hv
    obtain ⟨u, hu, hcu⟩ := hv
    rw [List.mem_map] at hu
    obtain ⟨d, _, rfl⟩ := hu
    rw [show coerceSource (fallbackSource d) = Option.some (PyVal.dict
      [("title", PyVal.str d.title), ("url", PyVal.str d.url),
       ("snippet", PyVal.str (strTake 100 d.snippet ++ "..."))]) from
      by simp [coerceSource, fallbackSource, getKeyD, getKey, pyStr]] at hcu
    obtain rfl := Option.some.inj hcu
    refine ⟨_, _, _, rfl, ?_⟩
    have h1 := pyLen_strTake 100 d.snippet
    have h2 : pyLen "..." = 3 := rfl
    rw [pyLen_append, h2]
    omega

/-- The raw-text wrap composed with the normalizer meets the full response
contract. -/
theorem goodResponse_raw (modelName s : String) :
    goodResponse (ensure_response_structure (ai_raw_wrap modelName s)) := by
  refine ⟨?_, ensure_conf_bounds _, ?_, ?_⟩
  · exact ensure_answer_of_str _ (pyStrip s) (by simp [ai_raw_wrap, getKey])
  · exact ⟨[], ensure_actions_of_list _ [] (by simp [ai_raw_wrap, getKey]), by simp⟩
  · refine ⟨[], ?_, by simp⟩
    have h := ensure_sources_of_list (ai_raw_wrap modelName s) []
      (by simp [ai_raw_wrap, getKey])
    simpa using h

/-! ### Retrieval helper lemmas -/

theorem str_ext {s t : String} (h : s.data = t.data) : s = t := by
  cases s; cases t; cases h; rfl

theorem append_assoc_str (a b c : String) : (a ++ b) ++ c = a ++ (b ++ c) :=
  str_ext (by simp [data_append])

theorem keyword_search_len (docs : List Doc) (q : String) (k : Nat) :
    (keyword_search docs q k).length ≤ k :=
  List.length_take_le _ _

theorem keyword_search_scores_sorted (docs : List Doc) (q : String) (k : Nat) :
    ((keyword_search docs q k).map Prod.snd).Pairwise (· ≥ ·) := by
  unfold keyword_search
  rw [List.pairwise_map]
  exact ((keywordSort_sorted (scoredDocs docs q)).sublist (List.take_sublist _ _)).imp
    (fun h => h)

theorem localRetrieve_len (docs : List Doc) (embs : List (List ℚ)) (qEmb : List ℚ) (k : Nat) :
    (localRetrieve docs embs qEmb k).length ≤ k := by
  unfold localRetrieve
  rw [List.length_map]
  exact List.length_take_le _ _

theorem localRetrieve_scores_sorted (docs : List Doc) (embs : List (List ℚ))
    (qEmb : List ℚ) (k : Nat) :
    ((localRetrieve docs embs qEmb k).map Prod.snd).Pairwise (· ≥ ·) := by
  unfold localRetrieve
  rw [List.map_map, List.pairwise_map]
  exact ((simOrder_sorted (embs.map (dot qEmb))).sublist (List.take_sublist _ _)).imp
    (fun hij => hij)

/-! ### Whitespace-query lemmas -/

theorem toLower_ws {c : Char} (h : c.isWhitespace = true) :
    (Char.toLower c).isWhitespace = true := by
  have hc : c = ' ' ∨ c = '\t' ∨ c = '\r' ∨ c = '\n' := by
    simpa [Char.isWhitespace, or_assoc] using h
  rcases hc with h | h | h | h <;> subst h <;> decide

theorem splitWsAux_nil_of_ws :
    ∀ cs : List Char, (∀ c ∈ cs, c.isWhitespace = true) → splitWsAux [] cs = []
  | [], _ => rfl
  | c :: cs, h => by
    rw [splitWsAux]
    rw [if_pos (h c (List.mem_cons_self c cs))]
    simp only [List.isEmpty_nil, if_true]
    exact splitWsAux_nil_of_ws cs (fun c' hc' => h c' (List.mem_cons.mpr (Or.inr hc')))

theorem wordSet_nil_of_ws {q : String} (h : ∀ c ∈ q.data, c.isWhitespace = true) :
    wordSet q = [] := by
  unfold wordSet pyWords splitWs lowerL
  rw [splitWsAux_nil_of_ws]
  · rfl
  · intro c hc
    rw [List.mem_map] at hc
    obtain ⟨c0, hc0, rfl⟩ := hc
    exact toLower_ws (h c0 hc0)

/-! ### The claims -/

/-- C1 (amended): in Tier A, when the generative backend returns text that
parses as a structured object (a JSON dict) that the structural validator
rejects — e.g. because `sources` or any of answer/confidence/actions is
missing — `synthesize_answer` falls through to the deterministic Tier-B
fallback, not to raw-text wrapping. -/
theorem C1_invalid_json_falls_to_deterministic (kvs : Obj) (mn p : String)
    (docs : List Doc) (img : Option String)
    (h : validate_response (PyVal.dict kvs) = Except.ok false) :
    synthesize_answer false (HFResult.json (PyVal.dict kvs)) mn p docs img =
      Except.ok (deterministic_fallback false p docs img) := by
  simp [synthesize_answer, h]

/-- Witness for C1: a concrete reply missing `sources` is rejected by the
validator and lands in the deterministic fallback. -/
theorem C1_invalid_json_falls_to_deterministic_witness :
    validate_response (PyVal.dict noSourcesReply) = Except.ok false ∧
    synthesize_answer false (HFResult.json (PyVal.dict noSourcesReply)) "m" "q" []
        Option.none = Except.ok (deterministic_fallback false "q" [] Option.none) :=
  ⟨rfl, C1_invalid_json_falls_to_deterministic noSourcesReply "m" "q" [] Option.none rfl⟩

/-- Counterexample for C1 as stated: for a reply missing `sources`, the
result is the deterministic fallback, whose confidence here is `0.4`, not
the raw-text wrap's fixed `0.7` — so the fall-back is not raw-text
wrapping. -/
theorem C1_not_raw_wrap_counterexample :
    synthesize_answer false (HFResult.json (PyVal.dict noSourcesReply)) "m" "q" []
        Option.none = Except.ok (deterministic_fallback false "q" [] Option.none) ∧
    getKey (deterministic_fallback false "q" [] Option.none) "confidence" =
      Option.some (PyVal.float (fallback_confidence 0)) ∧
    fallback_confidence 0 = 2/5 ∧ (2/5 : ℚ) ≠ 7/10 := by
  refine ⟨rfl, rfl, ?_, by norm_num⟩
  norm_num [fallback_confidence, min_def]

/-- C2 (amended): in the local-embedding-similarity tier the retriever
returns the top-`k` documents by descending dot-product score: the index
list `np.argsort(sims)[::-1]` is a permutation of all corpus indices with
non-increasing scores, truncated to `k` — but the claimed stable
tie-breaking by original corpus order does NOT hold (at a two-document tie
the later document is returned first, see the counterexample; for larger
corpora numpy's default unstable argsort guarantees no corpus-order tie rule
at all, so only the score order is asserted here). -/
theorem C2_top_k_descending_scores (docs : List Doc) (embs : List (List ℚ))
    (qEmb : List ℚ) (k : Nat) :
    (simOrder (embs.map (dot qEmb))).Perm (List.range (embs.map (dot qEmb)).length) ∧
    ((simOrder (embs.map (dot qEmb))).map
      (fun i => (embs.map (dot qEmb)).getD i 0)).Pairwise (· ≥ ·) ∧
    localRetrieve docs embs qEmb k =
      ((simOrder (embs.map (dot qEmb))).take k).map
        (fun i => (docs.getD i default, (embs.map (dot qEmb)).getD i 0)) :=
  ⟨simOrder_perm _, simOrder_scores_sorted _, rfl⟩

/-- Counterexample for C2 as stated: two documents with identical embeddings
(equal dot-product scores) come back with the LATER corpus document first,
not the earlier one.  At this array size numpy's default argsort is inside
its insertion-sort (stable) regime, so the model's evaluation matches the
program: the stable ascending argsort `[0, 1]` is reversed to `[1, 0]`. -/
theorem C2_equal_scores_later_doc_first :
    localRetrieve [tieDocA, tieDocB] [[1], [1]] [1] 2 = [(tieDocB, 1), (tieDocA, 1)] ∧
    tieDocA ≠ tieDocB := by
  constructor
  · norm_num [localRetrieve, simOrder, dot, byScoreAsc, List.insertionSort,
      List.orderedInsert, List.range_succ, tieDocA, tieDocB]
  · decide

/-- C3: for every corpus, attached model, embedding cache, query and `k`,
`retrieve` returns at most `k` score-decorated documents in non-increasing
score order, and returns the empty sequence on an empty corpus (in the total
shallow embedding it never raises). -/
theorem C3_retrieve_contract (docs : List Doc) (model : Option (String → List ℚ))
    (cache : Option (List (List ℚ))) (q : String) (k : Nat) :
    (retrieve docs model cache q k).length ≤ k ∧
    ((retrieve docs model cache q k).map Prod.snd).Pairwise (· ≥ ·) ∧
    (docs = [] → retrieve docs model cache q k = []) := by
  unfold retrieve
  by_cases hd : docs.isEmpty
  · simp [hd]
  · rw [if_neg hd]
    have hne : ¬docs = [] := by simpa [List.isEmpty_iff] using hd
    rcases model with _ | enc
    · exact ⟨keyword_search_len docs q k, keyword_search_scores_sorted docs q k,
        fun h => absurd h hne⟩
    · rcases cache with _ | embs
      · exact ⟨localRetrieve_len _ _ _ _, localRetrieve_scores_sorted _ _ _ _,
          fun h => absurd h hne⟩
      · exact ⟨localRetrieve_len _ _ _ _, localRetrieve_scores_sorted _ _ _ _,
          fun h => absurd h hne⟩

/-- Witness for C3: the contract at concrete inputs — an empty corpus gives
the empty result, a singleton corpus at `k = 3` gives at most 3 results. -/
theorem C3_retrieve_contract_witness :
    retrieve [] Option.none Option.none "x" 3 = [] ∧
    (retrieve [⟨"1", "t", "c", "s", "u"⟩] Option.none Option.none "t" 3).length ≤ 3 :=
  ⟨(C3_retrieve_contract [] Option.none Option.none "x" 3).2.2 rfl,
   (C3_retrieve_contract [⟨"1", "t", "c", "s", "u"⟩] Option.none Option.none "t" 3).1⟩

/-- C5: in the lexical keyword tier every returned document carries score
`2 × |query ∩ title words| + |query ∩ content words|` and a zero-scored
document never appears (every returned score is positive); the result is the
first `k` of the stable descending sort of the positively-scored documents,
is in non-increasing score order, and for every score value the tied
documents keep their original corpus order (the sort is stable). -/
theorem C5_keyword_tier_contract (docs : List Doc) (q : String) (k : Nat) :
    (∀ p ∈ keyword_search docs q k,
      p.2 = (keywordScore (wordSet q) p.1 : ℚ) ∧ 0 < p.2) ∧
    (keyword_search docs q k).length ≤ k ∧
    ((keyword_search docs q k).map Prod.snd).Pairwise (· ≥ ·) ∧
    keyword_search docs q k = ((scoredDocs docs q).insertionSort byScoreDesc).take k ∧
    (∀ c : ℚ, ((scoredDocs docs q).insertionSort byScoreDesc).filter
        (fun p => decide (p.2 = c)) =
      (scoredDocs docs q).filter (fun p => decide (p.2 = c))) := by
  refine ⟨?_, keyword_search_len docs q k, keyword_search_scores_sorted docs q k, rfl,
    keywordSort_stable _⟩
  intro p hp
  have h1 : p ∈ (scoredDocs docs q).insertionSort byScoreDesc :=
    List.mem_of_mem_take hp
  have h2 : p ∈ scoredDocs docs q :=
    (List.perm_insertionSort byScoreDesc (scoredDocs docs q)).mem_iff.mp h1
  unfold scoredDocs at h2
  rw [List.mem_filter] at h2
  obtain ⟨hmem, hpos⟩ := h2
  rw [List.mem_map] at hmem
  obtain ⟨d, _, rfl⟩ := hmem
  exact ⟨rfl, of_decide_eq_true hpos⟩

/-- Witness for C5: a concrete query/corpus pair; the returned document
carries score 2 (one shared title word) and a positive score. -/
theorem C5_keyword_tier_contract_witness :
    ((⟨"1", "wheat", "", "", ""⟩ : Doc), (2 : ℚ)) ∈
      keyword_search [⟨"1", "wheat", "", "", ""⟩] "wheat" 3 ∧
    ((2 : ℚ) = (keywordScore (wordSet "wheat") ⟨"1", "wheat", "", "", ""⟩ : ℚ) ∧
      (0 : ℚ) < 2) :=
  ⟨by decide, (C5_keyword_tier_contract [⟨"1", "wheat", "", "", ""⟩] "wheat" 3).1
    ((⟨"1", "wheat", "", "", ""⟩ : Doc), (2 : ℚ)) (by decide)⟩

/-- C6: the deterministic-fallback confidence equals
`min(0.8, 0.4 + 0.1 × number_of_context_snippets)`; for 0, 1, 2, 3 snippets
it is 0.4, 0.5, 0.6, 0.7; it is monotonically non-decreasing in the snippet
count and never exceeds 0.8. -/
theorem C6_fallback_confidence_formula :
    (∀ (demo : Bool) (p : String) (docs : List Doc) (img : Option String),
      getKey (deterministic_fallback demo p docs img) "confidence" =
        Option.some (PyVal.float (fallback_confidence (contextSnippets docs).length))) ∧
    fallback_confidence 0 = 2/5 ∧ fallback_confidence 1 = 1/2 ∧
    fallback_confidence 2 = 3/5 ∧ fallback_confidence 3 = 7/10 ∧
    (∀ m n : Nat, m ≤ n → fallback_confidence m ≤ fallback_confidence n) ∧
    (∀ n : Nat, fallback_confidence n ≤ 8/10) := by
  refine ⟨fun demo p docs img => rfl, by norm_num [fallback_confidence, min_def],
    by norm_num [fallback_confidence, min_def], by norm_num [fallback_confidence, min_def],
    by norm_num [fallback_confidence, min_def], ?_, fun n => min_le_left _ _⟩
  intro m n h
  unfold fallback_confidence
  refine min_le_min le_rfl ?_
  have hmn : (m : ℚ) ≤ n := Nat.cast_le.mpr h
  linarith

/-- Witness for C6: monotonicity applied at snippet counts 1 ≤ 2. -/
theorem C6_fallback_confidence_formula_witness :
    1 ≤ 2 ∧ fallback_confidence 1 ≤ fallback_confidence 2 :=
  ⟨by norm_num, C6_fallback_confidence_formula.2.2.2.2.2.1 1 2 (by norm_num)⟩

/-- C9: for every query and optional visual context, `_generate_actions`
returns exactly 3 actions — matched categories each contribute 3, the
accumulation is truncated to the first 3, and a fixed 3-item default is used
when nothing matches. -/
theorem C9_actions_length_three (q : String) (img : Option String) :
    (generate_actions q img).length = 3 :=
  generate_actions_len q img

/-- C10: the lexical keyword tier returns the empty list on a query that is
empty or all whitespace — the query word set is empty, every document scores
0 and is excluded. -/
theorem C10_keyword_empty_query (docs : List Doc) (k : Nat) (q : String)
    (h : ∀ c ∈ q.data, c.isWhitespace = true) :
    keyword_search docs q k = [] := by
  have hws : wordSet q = [] := wordSet_nil_of_ws h
  have hsc : scoredDocs docs q = [] := by
    unfold scoredDocs
    rw [List.filter_eq_nil_iff]
    intro p hp
    rw [List.mem_map] at hp
    obtain ⟨d, _, rfl⟩ := hp
    rw [hws]
    simp [keywordScore, interCount]
  unfold keyword_search
  rw [hsc]
  simp [List.insertionSort]

/-- Witness for C10: a two-space query over a singleton corpus gives the
empty result. -/
theorem C10_keyword_empty_query_witness :
    (∀ c ∈ ("  " : String).data, c.isWhitespace = true) ∧
    keyword_search [(⟨"1", "t", "c", "s", "u"⟩ : Doc)] "  " 3 = [] :=
  ⟨by decide, C10_keyword_empty_query [⟨"1", "t", "c", "s", "u"⟩] 3 "  " (by decide)⟩

/-- C4 (amended): whenever the synthesizer result does not come from a
structured backend reply accepted by the validator (whose fields pass
through the normalizer unmodified), the composition of `synthesize_answer`
and `ensure_response_structure` yields a response with a non-empty string
answer, confidence in `[0, 1]`, at most 3 actions, and every source snippet
of at most 103 characters. -/
theorem C4_synthesize_normalize_contract (demo : Bool) (hf : HFResult) (mn p : String)
    (docs : List Doc) (img : Option String) (r : Obj)
    (hacc : tierAAccepted demo hf = false)
    (hok : synthesize_answer demo hf mn p docs img = Except.ok r) :
    goodResponse (ensure_response_structure r) := by
  cases demo with
  | true =>
    simp only [synthesize_answer, if_true, Except.ok.injEq] at hok
    rw [← hok]
    exact goodResponse_deterministic true p docs img
  | false =>
    cases hf with
    | noResp =>
      have hok' : Except.ok (ε := Unit) (deterministic_fallback false p docs img) =
          Except.ok r := hok
      obtain rfl := Except.ok.inj hok'
      exact goodResponse_deterministic false p docs img
    | text s =>
      have hok' : (if s = "" then
            Except.ok (ε := Unit) (deterministic_fallback false p docs img)
          else Except.ok (ai_raw_wrap mn s)) = Except.ok r := hok
      by_cases hs : s = ""
      · rw [if_pos hs] at hok'
        obtain rfl := Except.ok.inj hok'
        exact goodResponse_deterministic false p docs img
      · rw [if_neg hs] at hok'
        obtain rfl := Except.ok.inj hok'
        exact goodResponse_raw mn s
    | json v =>
      have hacc' : (match validate_response v with
          | Except.ok true => true
          | _ => false) = false := hacc
      cases hv : validate_response v with
      | error e =>
        simp [synthesize_answer, hv] at hok
      | ok b =>
        cases b with
        | true =>
          rw [hv] at hacc'
          simp at hacc'
        | false =>
          simp only [synthesize_answer, Bool.false_eq_true, if_false, hv,
            Except.ok.injEq] at hok
          rw [← hok]
          exact goodResponse_deterministic false p docs img

/-- Witness for C4: the demo-mode deterministic path at a concrete input
satisfies the normalized contract. -/
theorem C4_synthesize_normalize_contract_witness :
    tierAAccepted true HFResult.noResp = false ∧
    synthesize_answer true HFResult.noResp "m" "q" [] Option.none =
      Except.ok (deterministic_fallback true "q" [] Option.none) ∧
    goodResponse (ensure_response_structure (deterministic_fallback true "q" []
      Option.none)) :=
  ⟨rfl, rfl, C4_synthesize_normalize_contract true HFResult.noResp "m" "q" [] Option.none
    (deterministic_fallback true "q" [] Option.none) rfl rfl⟩

/-- Counterexample for C4 as stated: a validated structured backend reply
carrying 4 actions passes through `synthesize_answer` and
`ensure_response_structure` with all 4 actions intact — the composition does
not bound `actions` by 3. -/
theorem C4_four_actions_counterexample :
    synthesize_answer false (HFResult.json (PyVal.dict fourActionsReply)) "m" "q" []
        Option.none =
      Except.ok (setKey fourActionsReply "meta"
        (PyVal.dict [("mode", PyVal.str "ai"), ("model", PyVal.str "m")])) ∧
    getKey (ensure_response_structure (setKey fourActionsReply "meta"
        (PyVal.dict [("mode", PyVal.str "ai"), ("model", PyVal.str "m")]))) "actions" =
      Option.some (PyVal.list
        [PyVal.str "a", PyVal.str "b", PyVal.str "c", PyVal.str "d"]) ∧
    ¬ (([PyVal.str "a", PyVal.str "b", PyVal.str "c", PyVal.str "d"] : List PyVal).length
      ≤ 3) :=
  ⟨rfl, rfl, by decide⟩

/-- C7 (amended): with demo mode on (Tier A disabled) and 2 matching
documents with non-empty snippets, the synthesizer answers the irrigation
query through the deterministic fallback with `meta.mode = "demo"` (not
"fallback": the code reports "demo" exactly when demo mode is on),
confidence `0.6`, an answer starting with the fixed irrigation template
sentence, and the irrigation-category 3-item action list. -/
theorem C7_irrigation_demo_scenario (hf : HFResult) (mn : String) (d1 d2 : Doc)
    (h1 : d1.snippet ≠ "") (h2 : d2.snippet ≠ "") :
    synthesize_answer true hf mn irrigationQuery [d1, d2] Option.none =
      Except.ok (deterministic_fallback true irrigationQuery [d1, d2] Option.none) ∧
    getKey (deterministic_fallback true irrigationQuery [d1, d2] Option.none) "meta" =
      Option.some (PyVal.dict
        [("mode", PyVal.str "demo"), ("retrieved_docs", PyVal.int 2)]) ∧
    getKey (deterministic_fallback true irrigationQuery [d1, d2] Option.none)
        "confidence" = Option.some (PyVal.float (3/5)) ∧
    (∃ rest, getKey (deterministic_fallback true irrigationQuery [d1, d2] Option.none)
        "answer" = Option.some (PyVal.str (irrigationBase ++ rest))) ∧
    getKey (deterministic_fallback true irrigationQuery [d1, d2] Option.none) "actions" =
      Option.some (PyVal.list (irrigationActions.map PyVal.str)) := by
  have hcs : contextSnippets [d1, d2] = [d1.snippet, d2.snippet] := by
    simp [contextSnippets, h1, h2]
  refine ⟨rfl, rfl, ?_, ?_, ?_⟩
  · show Option.some (PyVal.float (fallback_confidence (contextSnippets [d1, d2]).length))
      = Option.some (PyVal.float (3/5))
    rw [hcs]
    norm_num [fallback_confidence, min_def]
  · refine ⟨" " ++ d1.snippet, ?_⟩
    show Option.some (PyVal.str (generate_contextual_answer irrigationQuery
      (contextSnippets [d1, d2]) Option.none)) = _
    rw [hcs]
    have hcond : anyTerm (lowerL irrigationQuery) ["irrigate", "water", "rain", "weather"]
        = true := by decide
    have hans : generate_contextual_answer irrigationQuery [d1.snippet, d2.snippet]
        Option.none = irrigationBase ++ (" " ++ d1.snippet) := by
      rw [← append_assoc_str]
      simp [generate_contextual_answer, optTruthy, hcond, irrigationBase]
    rw [hans]
  · show Option.some (PyVal.list ((generate_actions irrigationQuery Option.none).map
      PyVal.str)) = _
    have hact : generate_actions irrigationQuery Option.none = irrigationActions := by
      decide
    rw [hact]

/-- Witness for C7: the scenario instantiated with two concrete matching
documents. -/
theorem C7_irrigation_demo_scenario_witness :
    wheatDoc1.snippet ≠ "" ∧ wheatDoc2.snippet ≠ "" ∧
    getKey (deterministic_fallback true irrigationQuery [wheatDoc1, wheatDoc2]
        Option.none) "confidence" = Option.some (PyVal.float (3/5)) :=
  ⟨by decide, by decide,
   (C7_irrigation_demo_scenario HFResult.noResp "m" wheatDoc1 wheatDoc2 (by decide)
     (by decide)).2.2.1⟩

/-- Counterexample for C7 as stated: in the very scenario the claim
describes, `meta.mode` is `"demo"`, not `"fallback"`. -/
theorem C7_mode_demo_counterexample :
    synthesize_answer true HFResult.noResp "m" irrigationQuery [wheatDoc1, wheatDoc2]
        Option.none =
      Except.ok (deterministic_fallback true irrigationQuery [wheatDoc1, wheatDoc2]
        Option.none) ∧
    getKey (deterministic_fallback true irrigationQuery [wheatDoc1, wheatDoc2]
        Option.none) "meta" =
      Option.some (PyVal.dict
        [("mode", PyVal.str "demo"), ("retrieved_docs", PyVal.int 2)]) ∧
    ("demo" : String) ≠ "fallback" :=
  ⟨rfl, rfl, by decide⟩

end FarmGuru
